import Mathlib

/-!
Verification of the ramses_rf core against its specification.

The Python sources are shallowly embedded: Python `dict`s become
association lists (`Dict`), exceptions become `Except`, verbs and packet
context keys become small inductive types, and times/durations become
rationals (seconds).  Where the repository's own code is not part of the
given sources (e.g. `ramses_tx/ramses.py`'s code tables), the relevant
table is modelled from the spec and marked as such in its doc comment.
-/

/-- Python verbs: `" I"`, `"RQ"`, `"RP"`, `" W"` (ramses_tx/const.py). -/
inductive Verb where
  | I : Verb
  | RQ : Verb
  | RP : Verb
  | W : Verb
deriving DecidableEq, Repr

/-- A packet's context key `pkt._ctx`: Python `True` / `False` / `None`
or a string index (spec §3, Packet `_ctx`). -/
inductive Ctx where
  | t : Ctx
  | f : Ctx
  | nil : Ctx
  | idx : String → Ctx
deriving DecidableEq, Repr

/-- Shallow embedding of a Python `dict` as an association list
(first occurrence of a key is the binding; keys are kept unique by the
operations below). -/
def Dict (K V : Type) : Type := List (K × V)

namespace Dict

variable {K V : Type} [DecidableEq K]

/-- The empty dict `{}`. -/
def empty {K V : Type} : Dict K V := []

/-- `d.get(k)` / `d[k]` lookup. -/
def look (d : Dict K V) (k : K) : Option V :=
  match d with
  | [] => none
  | (k', v) :: rest => if k' = k then some v else look rest k

/-- `k in d`. -/
def mem (d : Dict K V) (k : K) : Bool :=
  match d with
  | [] => false
  | (k', _) :: rest => k' = k || mem rest k

/-- `d[k] = v` (replace in place if the key is present, else append,
matching Python dict insertion-order semantics). -/
def insert (d : Dict K V) (k : K) (v : V) : Dict K V :=
  match d with
  | [] => [(k, v)]
  | (k', v') :: rest =>
      if k' = k then (k, v) :: rest else (k', v') :: insert rest k v

/-- `del d[k]` (no error reported; callers test membership first). -/
def erase (d : Dict K V) (k : K) : Dict K V :=
  match d with
  | [] => []
  | (k', v') :: rest => if k' = k then rest else (k', v') :: erase rest k

/-- `d == {}`. -/
def isEmpty {K V : Type} (d : Dict K V) : Bool :=
  match d with
  | [] => true
  | _ :: _ => false

theorem look_insert_self (d : Dict K V) (k : K) (v : V) :
    (d.insert k v).look k = some v := by
  induction d with
  | nil => simp [insert, look]
  | cons hd tl ih =>
      obtain ⟨k', v'⟩ := hd
      by_cases h : k' = k
      · simp [insert, look, h]
      · simp [insert, look, h, ih]

theorem look_insert_other (d : Dict K V) (k k' : K) (v : V) (h : k ≠ k') :
    (d.insert k v).look k' = d.look k' := by
  induction d with
  | nil => simp [insert, look, h]
  | cons hd tl ih =>
      obtain ⟨k0, v0⟩ := hd
      by_cases h0 : k0 = k
      · subst h0
        simp [insert, look, h]
      · simp [insert, look, h0, ih]

end Dict

/-! ## C1 — `Entity._handle_msg` (ramses_rf/entities.py)

The entity's message store.  A message, as far as the store is
concerned, is its code, verb, packet context key, and an identifier
standing for the rest of the object (payload, timestamps, ...). -/

/-- The projection of a `Message` used by the entity store
(`msg.code`, `msg.verb`, `msg._pkt._ctx`, plus an opaque identity). -/
structure EMsg where
  code : String
  verb : Verb
  ctx : Ctx
  uid : Nat
deriving DecidableEq, Repr

/-- The mutable state of an `Entity`: `_msgz[code][verb][ctx]` and the
latest-per-code view `_msgs[code]` (ramses_rf/entities.py, `__init__`). -/
structure EntState where
  msgz : Dict String (Dict Verb (Dict Ctx EMsg))
  msgs : Dict String EMsg

/-- The entity state with `_msgs = {}` and `_msgz = {}`. -/
def EntState.empty : EntState := ⟨Dict.empty, Dict.empty⟩

/-- `Entity._handle_msg` (ramses_rf/entities.py lines 55–79): insert the
message at `_msgz[msg.code][msg.verb][msg._pkt._ctx]`, creating the inner
dicts as needed, then set `_msgs[msg.code] := msg` iff
`msg.verb in (I_, RP)`. -/
def handle_msg (s : EntState) (m : EMsg) : EntState :=
  let msgz :=
    match s.msgz.look m.code with
    | none =>
        s.msgz.insert m.code (Dict.empty.insert m.verb (Dict.empty.insert m.ctx m))
    | some byVerb =>
        match byVerb.look m.verb with
        | none =>
            s.msgz.insert m.code (byVerb.insert m.verb (Dict.empty.insert m.ctx m))
        | some byCtx =>
            s.msgz.insert m.code (byVerb.insert m.verb (byCtx.insert m.ctx m))
  let msgs :=
    if m.verb = Verb.I ∨ m.verb = Verb.RP then s.msgs.insert m.code m else s.msgs
  ⟨msgz, msgs⟩

/-- Process a list of messages in arrival order. -/
def handle_msgs (s : EntState) (ms : List EMsg) : EntState :=
  ms.foldl handle_msg s

/-- Nested lookup `_msgz[code][verb][ctx]` as an `Option`. -/
def lookZ (s : EntState) (code : String) (verb : Verb) (ctx : Ctx) : Option EMsg :=
  match s.msgz.look code with
  | none => none
  | some byVerb =>
      match byVerb.look verb with
      | none => none
      | some byCtx => byCtx.look ctx

theorem lookZ_handle_self (s : EntState) (m : EMsg) :
    lookZ (handle_msg s m) m.code m.verb m.ctx = some m := by
  unfold handle_msg lookZ
  cases h1 : s.msgz.look m.code with
  | none =>
      simp [Dict.look_insert_self]
  | some byVerb =>
      cases h2 : byVerb.look m.verb with
      | none => simp [h1, h2, Dict.look_insert_self]
      | some byCtx => simp [h1, h2, Dict.look_insert_self]

theorem msgs_handle_of_IRP (s : EntState) (m : EMsg)
    (h : m.verb = Verb.I ∨ m.verb = Verb.RP) :
    (handle_msg s m).msgs = s.msgs.insert m.code m := by
  unfold handle_msg
  simp [h]

theorem msgs_handle_of_RQW (s : EntState) (m : EMsg)
    (h : ¬(m.verb = Verb.I ∨ m.verb = Verb.RP)) :
    (handle_msg s m).msgs = s.msgs := by
  unfold handle_msg
  simp [h]

/-- The most recently arrived message of the list with the given code and
an `I`/`RP` verb, if any. -/
def lastIRP (code : String) (ms : List EMsg) : Option EMsg :=
  (ms.filter (fun m => m.code = code ∧ (m.verb = Verb.I ∨ m.verb = Verb.RP))).getLast?

theorem msgs_handle_msgs_eq_lastIRP (s : EntState) (ms : List EMsg) (code : String) :
    (handle_msgs s ms).msgs.look code =
      match lastIRP code ms with
      | some m => some m
      | none => s.msgs.look code := by
  induction ms using List.reverseRecOn generalizing s with
  | nil => simp [handle_msgs, lastIRP]
  | append_singleton ms m ih =>
      unfold handle_msgs lastIRP at ih ⊢
      rw [List.foldl_append]
      simp only [List.foldl_cons, List.foldl_nil]
      by_cases hv : m.verb = Verb.I ∨ m.verb = Verb.RP
      · by_cases hc : m.code = code
        · rw [msgs_handle_of_IRP _ _ hv, hc, Dict.look_insert_self]
          rw [List.filter_append]
          simp [hc, hv]
        · rw [msgs_handle_of_IRP _ _ hv]
          rw [Dict.look_insert_other _ _ _ _ hc]
          rw [List.filter_append]
          have hfilter : List.filter
              (fun m => decide (m.code = code ∧ (m.verb = Verb.I ∨ m.verb = Verb.RP)))
              [m] = [] := by simp [hc]
          rw [hfilter, List.append_nil]
          exact ih s
      · have hmsgs : (handle_msg (List.foldl handle_msg s ms) m).msgs =
            (List.foldl handle_msg s ms).msgs := msgs_handle_of_RQW _ _ hv
        rw [hmsgs, List.filter_append]
        have hfilter : List.filter
            (fun m => decide (m.code = code ∧ (m.verb = Verb.I ∨ m.verb = Verb.RP)))
            [m] = [] := by simp [hv]
        rw [hfilter, List.append_nil]
        exact ih s


/-- C1: For every entity and every sequence of messages processed in order
via `Entity._handle_msg`, after each call the store satisfies
`_msgz[msg.code][msg.verb][ctx] = msg` (insert-or-replace, `ctx` the
packet's context key); the latest-per-code view `_msgs[code]` equals the
most recently handled message with that code whose verb is `I` or `RP`;
and handling a message whose verb is `RQ` or `W` leaves `_msgs`
unchanged. -/
theorem C1_entity_cache (s : EntState) (m : EMsg) (ms : List EMsg) (code : String) :
    lookZ (handle_msg s m) m.code m.verb m.ctx = some m ∧
    (handle_msgs EntState.empty ms).msgs.look code = lastIRP code ms ∧
    ((m.verb = Verb.RQ ∨ m.verb = Verb.W) → (handle_msg s m).msgs = s.msgs) := by
  refine ⟨lookZ_handle_self s m, ?_, ?_⟩
  · have h := msgs_handle_msgs_eq_lastIRP EntState.empty ms code
    cases hl : lastIRP code ms with
    | none =>
        rw [h, hl]
        rfl
    | some m' => rw [h, hl]
  · intro hv
    apply msgs_handle_of_RQW
    rcases hv with h | h <;> simp [h]

/-- Witness for C1 at a concrete entity store and messages: an `RP`
message lands in both stores, and a subsequent `RQ` message leaves
`_msgs` unchanged while landing in `_msgz`. -/
theorem C1_entity_cache_witness :
    lookZ (handle_msg EntState.empty ⟨"2309", Verb.RQ, Ctx.f, 7⟩)
        "2309" Verb.RQ Ctx.f = some ⟨"2309", Verb.RQ, Ctx.f, 7⟩ ∧
    (handle_msgs EntState.empty
        [⟨"2309", Verb.RP, Ctx.idx "01", 3⟩, ⟨"2309", Verb.RQ, Ctx.f, 7⟩]).msgs.look "2309" =
      some ⟨"2309", Verb.RP, Ctx.idx "01", 3⟩ ∧
    (handle_msg EntState.empty ⟨"2309", Verb.RQ, Ctx.f, 7⟩).msgs = EntState.empty.msgs := by
  have h := C1_entity_cache EntState.empty ⟨"2309", Verb.RQ, Ctx.f, 7⟩
    [⟨"2309", Verb.RP, Ctx.idx "01", 3⟩, ⟨"2309", Verb.RQ, Ctx.f, 7⟩] "2309"
  refine ⟨h.1, ?_, h.2.2 (Or.inl rfl)⟩
  rw [h.2.1]
  decide

/-! ## C2 — `Message._expired` (ramses_tx/message.py lines 294–336)

Times and durations are rationals measured in seconds; a `datetime` is
its offset from an arbitrary epoch. -/

/-- A packet's `_lifespan`: a `timedelta`, or Python `False` ("can't
expire"), or Python `True` (which `Message._expired` rejects with
`NotImplementedError`). -/
inductive Lifespan where
  | dur : ℚ → Lifespan
  | never : Lifespan
  | always : Lifespan
deriving DecidableEq, Repr

/-- The fields of a `Message` that `Message._expired` reads:
`self.code`, `self.verb`, `self.dtm`, `self._pkt._lifespan`, and (for a
`1F09` sync-cycle message) `self.payload["remaining_seconds"]`. -/
structure Msg2 where
  code : String
  verb : Verb
  dtm : ℚ
  lifespan : Lifespan
  remainingSeconds : ℚ
deriving DecidableEq, Repr

/-- `Message.CANT_EXPIRE = -1`, the sentinel cached in
`_fraction_expired` for immortal messages. -/
def CANT_EXPIRE : ℚ := -1

/-- `Message.HAS_EXPIRED = 2.0`. -/
def HAS_EXPIRED : ℚ := 2

/-- `_TD_SECS_003 = td(seconds=3)` (ramses_tx/message.py line 51). -/
def TD_SECS_003 : ℚ := 3

/-- The inner helper of `Message._expired`:
`fraction_expired(lifespan) = (self._gwy._dt_now() - self.dtm - _TD_SECS_003) / lifespan`.
`now` is the gateway clock value. -/
def fraction_expired (now dtm lifespan : ℚ) : ℚ :=
  (now - dtm - TD_SECS_003) / lifespan

/-- Step 2 of `Message._expired`: recompute `self._fraction_expired` and
return `self._fraction_expired >= self.HAS_EXPIRED`.  A `1F09` message
whose verb is not `RQ` uses `td(seconds=self.payload["remaining_seconds"])`
as the lifespan; a `_lifespan is False` packet caches `CANT_EXPIRE`; a
`_lifespan is True` packet raises `NotImplementedError` (the `Except.error`).
Returns the boolean result together with the new `_fraction_expired`. -/
def expired_update (m : Msg2) (now : ℚ) : Except Unit (Bool × Option ℚ) :=
  if m.code = "1F09" ∧ m.verb ≠ Verb.RQ then
    let f := fraction_expired now m.dtm m.remainingSeconds
    Except.ok (decide (HAS_EXPIRED ≤ f), some f)
  else
    match m.lifespan with
    | Lifespan.never => Except.ok (decide (HAS_EXPIRED ≤ CANT_EXPIRE), some CANT_EXPIRE)
    | Lifespan.always => Except.error ()
    | Lifespan.dur lifespan =>
        let f := fraction_expired now m.dtm lifespan
        Except.ok (decide (HAS_EXPIRED ≤ f), some f)

/-- `Message._expired` (ramses_tx/message.py lines 303–336), with the
`_fraction_expired` cache made an explicit argument (`none` when the
attribute is still `None`).  Step 1 ("look for easy win") returns from
the cache when it holds `CANT_EXPIRE` or has reached `HAS_EXPIRED`;
otherwise step 2 (`expired_update`) recomputes it. -/
def Message_expired (m : Msg2) (cache : Option ℚ) (now : ℚ) :
    Except Unit (Bool × Option ℚ) :=
  match cache with
  | some f =>
      if f = CANT_EXPIRE then Except.ok (false, some f)
      else if HAS_EXPIRED ≤ f then Except.ok (true, some f)
      else expired_update m now
  | none => expired_update m now

/-- C2: with a fresh cache and a duration lifespan (and not the 1F09
special case), `_expired` returns `True` iff
`(now - dtm - 3s) / lifespan >= 2.0`; a `_lifespan is False` packet
always returns `False` (first call and every later call, via the
`CANT_EXPIRE` sentinel); a `1F09` message whose verb is not `RQ` uses the
payload's `remaining_seconds` as lifespan; and once the cached fraction
has reached `2.0` every later call returns `True` with the cache
unchanged, whatever the clock now says. -/
theorem C2_message_expired (m : Msg2) (now f lifespan : ℚ) :
    (¬(m.code = "1F09" ∧ m.verb ≠ Verb.RQ) → m.lifespan = Lifespan.dur lifespan →
      Message_expired m none now =
        Except.ok (decide (HAS_EXPIRED ≤ fraction_expired now m.dtm lifespan),
          some (fraction_expired now m.dtm lifespan))) ∧
    (¬(m.code = "1F09" ∧ m.verb ≠ Verb.RQ) → m.lifespan = Lifespan.never →
      Message_expired m none now = Except.ok (false, some CANT_EXPIRE) ∧
      Message_expired m (some CANT_EXPIRE) now = Except.ok (false, some CANT_EXPIRE)) ∧
    (m.code = "1F09" → m.verb ≠ Verb.RQ →
      Message_expired m none now =
        Except.ok (decide (HAS_EXPIRED ≤ fraction_expired now m.dtm m.remainingSeconds),
          some (fraction_expired now m.dtm m.remainingSeconds))) ∧
    (HAS_EXPIRED ≤ f →
      Message_expired m (some f) now = Except.ok (true, some f)) := by
  refine ⟨?_, ?_, ?_, ?_⟩
  · intro hspec hdur
    simp [Message_expired, expired_update, hspec, hdur]
  · intro hspec hnever
    constructor
    · simp [Message_expired, expired_update, hspec, hnever]
      decide
    · have : CANT_EXPIRE = CANT_EXPIRE := rfl
      simp [Message_expired]
  · intro hcode hverb
    simp [Message_expired, expired_update, hcode, hverb]
  · intro hf
    have hne : f ≠ CANT_EXPIRE := by
      intro h
      rw [h] at hf
      norm_num [HAS_EXPIRED, CANT_EXPIRE] at hf
    simp [Message_expired, hne, hf]

/-- Witness for C2 at concrete inputs: a `3150` message with a 20-minute
lifespan received at t=0 is expired when read at t=2500s
((2500-0-3)/1200 ≥ 2); an immortal message is not expired; a `1F09` `I`
message with 60 remaining seconds read 300s later is expired; a settled
cache of 2.5 stays expired. -/
theorem C2_message_expired_witness :
    Message_expired ⟨"3150", Verb.I, 0, Lifespan.dur 1200, 0⟩ none 2500 =
      Except.ok (true, some (2497 / 1200)) ∧
    Message_expired ⟨"10E0", Verb.RP, 0, Lifespan.never, 0⟩ none 2500 =
      Except.ok (false, some CANT_EXPIRE) ∧
    Message_expired ⟨"1F09", Verb.I, 0, Lifespan.dur 1200, 60⟩ none 300 =
      Except.ok (true, some (297 / 60)) ∧
    Message_expired ⟨"3150", Verb.I, 0, Lifespan.dur 1200, 0⟩ (some (5 / 2)) 0 =
      Except.ok (true, some (5 / 2)) := by
  have h1 := (C2_message_expired ⟨"3150", Verb.I, 0, Lifespan.dur 1200, 0⟩ 2500 0 1200).1
    (by decide) rfl
  have h2 := ((C2_message_expired ⟨"10E0", Verb.RP, 0, Lifespan.never, 0⟩ 2500 0 0).2.1
    (by decide) rfl).1
  have h3 := (C2_message_expired ⟨"1F09", Verb.I, 0, Lifespan.dur 1200, 60⟩ 300 0 0).2.2.1
    rfl (by decide)
  have h4 := (C2_message_expired ⟨"3150", Verb.I, 0, Lifespan.dur 1200, 0⟩ 0 (5 / 2) 0).2.2.2
    (by norm_num [HAS_EXPIRED])
  refine ⟨?_, h2, ?_, h4⟩
  · rw [h1]
    norm_num [fraction_expired, TD_SECS_003, HAS_EXPIRED]
  · rw [h3]
    norm_num [fraction_expired, TD_SECS_003, HAS_EXPIRED]

/-! ## C3 — the `expired` free function (ramses_rf/entities.py lines 138–166)

Entities are arena-allocated and addressed by id, the world being a dict
from entity id to `EntState` (the spec's own design note for the cyclic
`Device`/`Controller` references).  `msg._ctl.get_zone_by_id["HW"]` and
`msg._ctl.get_zone_by_id[msg.payload["zone_idx"]]` are abstracted to the
ids those lookups yield. -/

/-- The fields of a message that `expired` reads: the store keys
(`code`, `verb`, `_pkt._ctx`), the identity of the stored message, the
referenced entities (`msg.src`, `msg._ctl`, the DHW zone, the zone named
by `payload["zone_idx"]`), which of the index keys the payload carries,
and the precomputed `msg._has_expired` fraction. -/
structure XMsg where
  code : String
  verb : Verb
  ctx : Ctx
  uid : Nat
  srcId : String
  ctlId : String
  dhwZoneId : String
  namedZoneId : String
  hasDomainId : Bool
  hasDhwId : Bool
  zoneIdx : Option String
  hasExpired : ℚ
deriving DecidableEq, Repr

/-- The projection of an `XMsg` to the value stored in an entity store. -/
def XMsg.toEMsg (m : XMsg) : EMsg := ⟨m.code, m.verb, m.ctx, m.uid⟩

/-- The body of `expired`'s per-entity cleanup:
`del obj._msgs[msg.code]` when the stored message's code is present with
the same verb, then `del obj._msgz[msg.code][msg.verb][msg._pkt._ctx]`
(dropping inner dicts that become `{}`), with a `KeyError` at any level
of the `del` swallowed by the `try`/`except KeyError: pass`. -/
def removeMsgFrom (e : EntState) (m : XMsg) : EntState :=
  let msgs :=
    match e.msgs.look m.code with
    | some stored => if stored.verb = m.verb then e.msgs.erase m.code else e.msgs
    | none => e.msgs
  let msgz :=
    match e.msgz.look m.code with
    | none => e.msgz
    | some byVerb =>
        match byVerb.look m.verb with
        | none => e.msgz
        | some byCtx =>
            match byCtx.look m.ctx with
            | none => e.msgz
            | some _ =>
                let byCtx' := byCtx.erase m.ctx
                let byVerb' :=
                  if byCtx'.isEmpty then (byVerb.insert m.verb byCtx').erase m.verb
                  else byVerb.insert m.verb byCtx'
                if byVerb'.isEmpty then (e.msgz.insert m.code byVerb').erase m.code
                else e.msgz.insert m.code byVerb'
  ⟨msgz, msgs⟩

/-- The list `entities` built by `expired`: `[msg.src]`, plus the
controller when the payload has a `domain_id`, the `"HW"` zone when it
has a `dhw_id`, and the zone named by `zone_idx` when it has one. -/
def expiredEntities (m : XMsg) : List String :=
  [m.srcId]
    ++ (if m.hasDomainId then [m.ctlId] else [])
    ++ (if m.hasDhwId then [m.dhwZoneId] else [])
    ++ (match m.zoneIdx with | some _ => [m.namedZoneId] | none => [])

/-- The `expired` free function (ramses_rf/entities.py lines 138–166).
If `msg._has_expired < msg.HAS_EXPIRED` it just returns the fraction.
Otherwise it builds `entities` and enters `for obj in entities:` — whose
body ends with an unconditional `return has_expired`, so only the first
entity of the list (always `msg.src`) is processed before the function
returns. -/
def expiredFn (w : Dict String EntState) (m : XMsg) :
    Option ℚ × Dict String EntState :=
  if m.hasExpired < HAS_EXPIRED then (some m.hasExpired, w)
  else
    match expiredEntities m with
    | [] => (none, w)
    | objId :: _ =>
        let e := (w.look objId).getD EntState.empty
        (some m.hasExpired, w.insert objId (removeMsgFrom e m))

/-- The expired message used to exhibit the divergence: an `I` `12B0`
message of domain `FC` (so the payload carries a `domain_id`), held in the
stores of both its source `04:000001` and the controller `01:000002`,
whose expiry fraction has reached `HAS_EXPIRED`. -/
def c3msg : XMsg :=
  ⟨"12B0", Verb.I, Ctx.idx "FC", 11, "04:000001", "01:000002",
    "01:000002_HW", "01:000002_00", true, false, none, 2⟩

/-- The world for the C3 divergence: both `msg.src` and `msg._ctl` hold
`c3msg` in `_msgs` and `_msgz` (as `Entity._handle_msg` would leave them). -/
def c3world : Dict String EntState :=
  (Dict.empty.insert "04:000001" (handle_msg EntState.empty c3msg.toEMsg)).insert
    "01:000002" (handle_msg EntState.empty c3msg.toEMsg)

/-- C3 (divergence witness): calling `expired` on a message whose expiry
fraction has reached `HAS_EXPIRED` and whose payload carries a
`domain_id` returns the fraction and cleanses the stores of `msg.src` —
but the controller's stores still contain the message afterwards, because
the `return` sits inside the `for obj in entities:` loop: the claim (and
spec) say every referring entity is cleansed. -/
theorem C3_expired_only_cleanses_src :
    (expiredFn c3world c3msg).1 = some 2 ∧
    expiredEntities c3msg = ["04:000001", "01:000002"] ∧
    (((expiredFn c3world c3msg).2.look "04:000001").getD EntState.empty).msgs.look "12B0"
      = none ∧
    lookZ (((expiredFn c3world c3msg).2.look "04:000001").getD EntState.empty)
      "12B0" Verb.I (Ctx.idx "FC") = none ∧
    (((expiredFn c3world c3msg).2.look "01:000002").getD EntState.empty).msgs.look "12B0"
      = some c3msg.toEMsg ∧
    lookZ (((expiredFn c3world c3msg).2.look "01:000002").getD EntState.empty)
      "12B0" Verb.I (Ctx.idx "FC") = some c3msg.toEMsg := by
  refine ⟨by decide, by decide, by decide, by decide, by decide, by decide⟩

/-! ## C4 — `_check_msg_addrs` (ramses_rf/dispatcher.py lines 106–133) -/

/-- A device address: its type byte (`addr.type`, the `"TT"` prefix) and
its full 9-character id. -/
structure Addr where
  ty : String
  id : String
deriving DecidableEq, Repr

/-- The fields of a message that `_check_msg_addrs` reads. -/
structure Msg4 where
  src : Addr
  dst : Addr
  code : String
deriving DecidableEq, Repr

/-- The packet exceptions of ramses_tx/exceptions.py used by the
dispatcher and message validation: `PacketInvalid` and its subclasses
`PacketAddrSetInvalid` and `PacketPayloadInvalid`, each carrying its
message string. -/
inductive RamsesErr where
  | packetInvalid : String → RamsesErr
  | packetAddrSetInvalid : String → RamsesErr
  | packetPayloadInvalid : String → RamsesErr
deriving DecidableEq, Repr

/-- `DEV_TYPE_MAP.HEAT_DEVICES` (ramses_tx/const.py lines 362–376): the
CH/DHW device type bytes.  Note `"18"` (HGI) is not among them. -/
def DEV_TYPE_MAP_HEAT_DEVICES : List String :=
  ["00", "01", "02", "03", "04", "07", "10", "12", "13", "17", "22", "30", "34"]

/-- Modelled from the spec: `CODES_OF_HEAT_DOMAIN_ONLY` lives in
ramses_tx/ramses.py, which is not among the given sources.  Spec §4.C
says such a set exists; scenario S2 says code `0001` is heat-only, and
the dispatcher's own comment gives an `1F09` frame as a heat-only
example.  Only membership of these two codes is relied on below. -/
def CODES_OF_HEAT_DOMAIN_ONLY : List String := ["0001", "1F09"]

/-- `_check_msg_addrs` (ramses_rf/dispatcher.py lines 106–133): raise
`PacketAddrSetInvalid` when `msg.src.id != msg.dst.id`, the two type
bytes coincide, the shared type byte is in `DEV_TYPE_MAP.HEAT_DEVICES`,
and the code is in `CODES_OF_HEAT_DOMAIN_ONLY`.  The remaining branches
(`CODES_OF_HEAT_DOMAIN`, not `CODES_OF_HVAC_DOMAIN_ONLY`) only log a
warning or an info line and return normally. -/
def check_msg_addrs (m : Msg4) : Except RamsesErr Unit :=
  if m.src.id ≠ m.dst.id ∧ m.src.ty = m.dst.ty ∧
      m.src.ty ∈ DEV_TYPE_MAP_HEAT_DEVICES then
    if m.code ∈ CODES_OF_HEAT_DOMAIN_ONLY then
      Except.error (RamsesErr.packetAddrSetInvalid
        ("Invalid addr pair: " ++ m.src.id ++ "/" ++ m.dst.id))
    else Except.ok ()
  else Except.ok ()

/-- The S2 frame `I --- 18:013393 18:000730 --:------ 0001 005 00FFFF0200`
as seen by `_check_msg_addrs`. -/
def c4s2 : Msg4 := ⟨⟨"18", "18:013393"⟩, ⟨"18", "18:000730"⟩, "0001"⟩

/-- A self-addressed broadcast `I --- 01:158182 --:------ 01:158182 1F09 ...`:
src and dst are the same controller address, sharing heat type byte `01`,
with heat-only code `1F09`. -/
def c4self : Msg4 := ⟨⟨"01", "01:158182"⟩, ⟨"01", "01:158182"⟩, "1F09"⟩

/-- C4 counterexample: the claim's flagship frame — both addresses of HGI
type `18`, heat-only code `0001` — passes `_check_msg_addrs` without
error, because `"18"` is not in `DEV_TYPE_MAP.HEAT_DEVICES`; and a
self-addressed frame whose shared type byte `01` *is* a heat device type
also passes, because the check additionally requires `src.id != dst.id`.
Both contradict the claim as stated. -/
theorem C4_check_msg_addrs_counterexample :
    check_msg_addrs c4s2 = Except.ok () ∧
    "18" ∉ DEV_TYPE_MAP_HEAT_DEVICES ∧
    "0001" ∈ CODES_OF_HEAT_DOMAIN_ONLY ∧
    check_msg_addrs c4self = Except.ok () ∧
    c4self.src.ty = c4self.dst.ty ∧
    c4self.src.ty ∈ DEV_TYPE_MAP_HEAT_DEVICES ∧
    c4self.code ∈ CODES_OF_HEAT_DOMAIN_ONLY := by
  refine ⟨rfl, by decide, by decide, rfl, by decide, by decide, by decide⟩

/-- C4 as amended: `_check_msg_addrs` raises `PacketAddrSetInvalid`
exactly for messages whose src and dst have *different ids* but the same
type byte, with that type byte in `DEV_TYPE_MAP.HEAT_DEVICES` (a set that
does not contain the HGI type `18`) and a heat-domain-only code. -/
theorem C4_check_msg_addrs_amended (m : Msg4) :
    check_msg_addrs m =
      (if m.src.id ≠ m.dst.id ∧ m.src.ty = m.dst.ty ∧
          m.src.ty ∈ DEV_TYPE_MAP_HEAT_DEVICES ∧ m.code ∈ CODES_OF_HEAT_DOMAIN_ONLY
        then Except.error (RamsesErr.packetAddrSetInvalid
          ("Invalid addr pair: " ++ m.src.id ++ "/" ++ m.dst.id))
        else Except.ok ()) := by
  unfold check_msg_addrs
  by_cases h1 : m.src.id ≠ m.dst.id ∧ m.src.ty = m.dst.ty ∧
      m.src.ty ∈ DEV_TYPE_MAP_HEAT_DEVICES
  · by_cases h2 : m.code ∈ CODES_OF_HEAT_DOMAIN_ONLY
    · rw [if_pos h1, if_pos h2, if_pos ⟨h1.1, h1.2.1, h1.2.2, h2⟩]
    · rw [if_pos h1, if_neg h2, if_neg (fun hh => h2 hh.2.2.2)]
  · rw [if_neg h1, if_neg (fun hh => h1 ⟨hh.1, hh.2.1, hh.2.2.1⟩)]

/-! ## C5 — `_check_msg_payload` and `MessageBase._validate`
(ramses_tx/message.py lines 243–285 and 347–367) -/

/-- A parsed payload value (string, number, boolean or null). -/
inductive PVal where
  | str : String → PVal
  | num : Int → PVal
  | boolv : Bool → PVal
  | null : PVal
deriving DecidableEq, Repr

/-- A parsed payload: a map, or a list of maps. -/
inductive PayloadV where
  | dict : List (String × PVal) → PayloadV
  | list : List (List (String × PVal)) → PayloadV
deriving DecidableEq, Repr

/-- The two-character wire form of a verb (`" I"`, `"RQ"`, `"RP"`, `" W"`). -/
def verbStr : Verb → String
  | Verb.I => " I"
  | Verb.RQ => "RQ"
  | Verb.RP => "RP"
  | Verb.W => " W"

/-- Modelled from the spec: `CODES_SCHEMA` lives in ramses_tx/ramses.py,
which is not among the given sources.  Spec §4.C describes it as a
static, code-indexed table of regexes keyed by verb; regex matching is
abstracted to a payload predicate per `(code, verb)` pair. -/
def CodesSchema : Type := Dict String (Dict Verb (String → Bool))

/-- `_check_msg_payload` (ramses_tx/message.py lines 347–367): raise
`PacketInvalid("Unknown code: ...")` when the code is not in
`CODES_SCHEMA`; `PacketInvalid("Unknown verb/code pair: ...")` when the
code's entry has no regex for the verb (the `KeyError` branch); and
`PacketPayloadInvalid` when the raw payload does not match the regex. -/
def check_msg_payload (schema : CodesSchema) (code : String) (verb : Verb)
    (payload : String) : Except RamsesErr Unit :=
  match schema.look code with
  | none => Except.error (RamsesErr.packetInvalid ("Unknown code: " ++ code))
  | some verbs =>
      match verbs.look verb with
      | none => Except.error (RamsesErr.packetInvalid
          ("Unknown verb/code pair: " ++ verbStr verb ++ "/" ++ code))
      | some regex =>
          if regex payload then Except.ok ()
          else Except.error (RamsesErr.packetPayloadInvalid
            ("Payload doesn't match: " ++ payload))

/-- `MessageBase._validate` (ramses_tx/message.py lines 243–285), with
the code-specific parser abstracted as a function argument: first run
`_check_msg_payload` (re-raising its `PacketInvalid`), then return the
empty payload for a no-payload `RQ` whose code is not in
`RQ_IDX_COMPLEX`, and otherwise invoke `parse_payload`. -/
def validate (schema : CodesSchema) (rqIdxComplex : List String)
    (parser : String → Except RamsesErr PayloadV) (code : String) (verb : Verb)
    (hasPayload : Bool) (payload : String) : Except RamsesErr PayloadV :=
  match check_msg_payload schema code verb payload with
  | Except.error e => Except.error e
  | Except.ok _ =>
      if ¬hasPayload ∧ (verb = Verb.RQ ∧ code ∉ rqIdxComplex) then
        Except.ok (PayloadV.dict [])
      else parser payload

/-- C5: the validation run by `Message` construction fails with
`PacketInvalid("Unknown code: ...")` for a code absent from the schema,
with `PacketInvalid("Unknown verb/code pair: ...")` for a known code
without a grammar entry for the packet's verb, and with
`PacketPayloadInvalid` when the raw payload fails the `(code, verb)`
regex — in each case whatever the code-specific parser would do, since
`_check_msg_payload` runs before parsing. -/
theorem C5_check_msg_payload (schema : CodesSchema) (rqIdxComplex : List String)
    (parser : String → Except RamsesErr PayloadV) (code : String) (verb : Verb)
    (hasPayload : Bool) (payload : String) :
    (schema.look code = none →
      validate schema rqIdxComplex parser code verb hasPayload payload =
        Except.error (RamsesErr.packetInvalid ("Unknown code: " ++ code))) ∧
    (∀ verbs, schema.look code = some verbs → verbs.look verb = none →
      validate schema rqIdxComplex parser code verb hasPayload payload =
        Except.error (RamsesErr.packetInvalid
          ("Unknown verb/code pair: " ++ verbStr verb ++ "/" ++ code))) ∧
    (∀ verbs regex, schema.look code = some verbs → verbs.look verb = some regex →
      regex payload = false →
      validate schema rqIdxComplex parser code verb hasPayload payload =
        Except.error (RamsesErr.packetPayloadInvalid
          ("Payload doesn't match: " ++ payload))) := by
  refine ⟨?_, ?_, ?_⟩
  · intro h
    simp only [validate, check_msg_payload, h]
  · intro verbs h1 h2
    simp only [validate, check_msg_payload, h1, h2]
  · intro verbs regex h1 h2 h3
    simp [validate, check_msg_payload, h1, h2, h3]

/-- A concrete schema for the C5 witness: code `0006` accepts only `RQ`
with payload `"00"`; applying `C5_check_msg_payload` to it exhibits all
three failures, each one insensitive to the parser (here one that would
succeed on anything). -/
def c5schema : CodesSchema :=
  Dict.empty.insert "0006" (Dict.empty.insert Verb.RQ (fun p => p = "00"))

/-- Witness for C5 at concrete inputs: unknown code `4410`, unknown verb
pair ` W/0006`, and an `RQ/0006` payload failing the regex. -/
theorem C5_check_msg_payload_witness :
    validate c5schema [] (fun _ => Except.ok (PayloadV.dict [])) "4410" Verb.RQ
        true "00" =
      Except.error (RamsesErr.packetInvalid "Unknown code: 4410") ∧
    validate c5schema [] (fun _ => Except.ok (PayloadV.dict [])) "0006" Verb.W
        true "00" =
      Except.error (RamsesErr.packetInvalid "Unknown verb/code pair:  W/0006") ∧
    validate c5schema [] (fun _ => Except.ok (PayloadV.dict [])) "0006" Verb.RQ
        true "00FF" =
      Except.error (RamsesErr.packetPayloadInvalid "Payload doesn't match: 00FF") := by
  refine ⟨?_, ?_, ?_⟩
  · have h := (C5_check_msg_payload c5schema []
      (fun _ => Except.ok (PayloadV.dict [])) "4410" Verb.RQ true "00").1 rfl
    simpa using h
  · have h := (C5_check_msg_payload c5schema []
      (fun _ => Except.ok (PayloadV.dict [])) "0006" Verb.W true "00").2.1
      (Dict.empty.insert Verb.RQ (fun p => p = "00")) rfl rfl
    simpa using h
  · have h := (C5_check_msg_payload c5schema []
      (fun _ => Except.ok (PayloadV.dict [])) "0006" Verb.RQ true "00FF").2.2
      (Dict.empty.insert Verb.RQ (fun p => p = "00")) (fun p => p = "00") rfl rfl
      (by decide)
    simpa using h

/-! ## C6 — routing in `process_msg` (ramses_rf/dispatcher.py lines 284–311) -/

/-- A device as the routing step sees it: its id, whether it is an
instance of `Fakeable`, and its binding context's `is_binding` flag (the
"Listening" state of the claim). -/
structure RDev where
  id : String
  fakeable : Bool
  isBinding : Bool
deriving DecidableEq, Repr

/-- The fields of a message that the routing step reads: the two
addresses (after device promotion), whether `msg.src` is a `Device` and
whether `msg.dst` is a `Fakeable`, the code, the parsed payload's
1FC9 `phase` (when present), and `msg.src.devices` when the source
carries that attribute. -/
structure Msg6 where
  srcId : String
  dstId : String
  srcIsDevice : Bool
  dstFakeable : Bool
  code : String
  phase : Option String
  srcDevices : Option (List String)
deriving DecidableEq, Repr

/-- The routing step of `process_msg` (ramses_rf/dispatcher.py lines
284–311): deliver to `msg.src._handle_msg` when src is a `Device`;
then — one branch only of the `if`/`elif`/`elif` chain — to
`msg.dst` when it is distinct from src and `Fakeable`, *else* to every
other fakeable device whose binding context is active when the code is
`1FC9` and the payload phase is `offer`, *else* to `msg.src.devices`
when src carries that attribute.  Returns the ids handed to
`gwy._loop.call_soon(d._handle_msg, msg)`, in order. -/
def route_targets (devices : List RDev) (m : Msg6) : List String :=
  (if m.srcIsDevice then [m.srcId] else []) ++
    (if m.dstId ≠ m.srcId ∧ m.dstFakeable then [m.dstId]
     else if m.code = "1FC9" ∧ m.phase = some "offer" then
       (devices.filter (fun d => d.id ≠ m.srcId ∧ d.fakeable ∧ d.isBinding)).map RDev.id
     else m.srcDevices.getD [])

/-- The C6 counterexample message: a `1FC9` offer from `30:111111` to a
distinct fakeable `32:222222`, while a fakeable listening device
`34:444444` exists and the source also carries a `devices` attribute
naming `13:333333`. -/
def c6msg : Msg6 :=
  ⟨"30:111111", "32:222222", true, true, "1FC9", some "offer", some ["13:333333"]⟩

/-- The gateway's device list for the C6 counterexample. -/
def c6devices : List RDev := [⟨"34:444444", true, true⟩]

/-- C6 counterexample: with all three "additional delivery" conditions
true at once, the code delivers only to src and dst — the listening
fakeable `34:444444` and the source's `devices` member `13:333333` are
*not* delivered to, because the three extra deliveries form an
`if`/`elif`/`elif` chain, not a cumulative union as the claim states. -/
theorem C6_route_targets_counterexample :
    route_targets c6devices c6msg = ["30:111111", "32:222222"] ∧
    (c6msg.code = "1FC9" ∧ c6msg.phase = some "offer") ∧
    (∀ d ∈ c6devices, d.id ≠ c6msg.srcId ∧ d.fakeable ∧ d.isBinding) ∧
    c6msg.srcDevices = some ["13:333333"] ∧
    "34:444444" ∉ route_targets c6devices c6msg ∧
    "13:333333" ∉ route_targets c6devices c6msg := by
  refine ⟨rfl, by decide, by decide, rfl, by decide, by decide⟩

/-- C6 as amended: a characterization of the delivered set.  Every
routed message goes to `msg.src._handle_msg` when src is a `Device`;
the additional deliveries are mutually exclusive, tried in this order:
(1) dst, when distinct from src and fakeable; otherwise (2) every other
fakeable device with an active binding context, when the code is `1FC9`
and the payload phase is `offer`; otherwise (3) the members of
`msg.src.devices`, when the source carries that attribute. -/
theorem C6_route_targets_amended (devices : List RDev) (m : Msg6) (x : String) :
    x ∈ route_targets devices m ↔
      (m.srcIsDevice ∧ x = m.srcId) ∨
      ((m.dstId ≠ m.srcId ∧ m.dstFakeable) ∧ x = m.dstId) ∨
      (¬(m.dstId ≠ m.srcId ∧ m.dstFakeable) ∧
        (m.code = "1FC9" ∧ m.phase = some "offer") ∧
        ∃ d ∈ devices, d.id = x ∧ d.id ≠ m.srcId ∧ d.fakeable ∧ d.isBinding) ∨
      (¬(m.dstId ≠ m.srcId ∧ m.dstFakeable) ∧
        ¬(m.code = "1FC9" ∧ m.phase = some "offer") ∧
        ∃ ds, m.srcDevices = some ds ∧ x ∈ ds) := by
  unfold route_targets
  rw [List.mem_append]
  by_cases h1 : m.dstId ≠ m.srcId ∧ m.dstFakeable = true
  · rw [if_pos h1]
    by_cases h0 : m.srcIsDevice = true <;> simp [h0, h1]
  · rw [if_neg h1]
    by_cases h2 : m.code = "1FC9" ∧ m.phase = some "offer"
    · rw [if_pos h2]
      by_cases h0 : m.srcIsDevice = true <;>
        simp [h0, h1, h2, List.mem_filter, List.mem_map] <;> aesop
    · rw [if_neg h2]
      cases h3 : m.srcDevices with
      | some ds =>
          by_cases h0 : m.srcIsDevice = true <;>
            simp [h0, h1, h2, h3]
      | none =>
          by_cases h0 : m.srcIsDevice = true <;>
            simp [h0, h1, h2, h3]

/-! ## C7 — `process_msg` error containment (ramses_rf/dispatcher.py lines 241–322)

The dispatcher's module flags are their published values:
`DEV_MODE = False`, `STRICT_MODE = False` — so `_check_src_slug` and
`_check_dst_slug` only ever log (every `raise` in them is guarded by
`STRICT_MODE`) and are no-ops here. -/

/-- The exception classes named by `process_msg`'s two `except` clauses:
`(AssertionError, exc.RamsesException, NotImplementedError)` and
`(AttributeError, LookupError, TypeError, ValueError)`. -/
inductive PyErr where
  | assertionError : PyErr
  | ramses : RamsesErr → PyErr
  | notImplementedError : PyErr
  | attributeError : PyErr
  | lookupError : String → PyErr
  | typeError : PyErr
  | valueError : PyErr
deriving DecidableEq, Repr

/-- A device's routing-relevant attributes plus its `devices` attribute
when its class carries one (e.g. a controller's members). -/
structure RDev7 where
  id : String
  fakeable : Bool
  isBinding : Bool
  devs : Option (List String)
deriving DecidableEq, Repr

/-- The gateway state read and mutated by `process_msg`: the
`reduce_processing` and `enable_eavesdrop` config, the HGI's id, the
allow-list of ids `get_device` will create (spec §6
`enforce_known_list`), the registry of ids already promoted to
`Device`s, and the per-device attribute table. -/
structure Gwy7 where
  reduceProcessing : Nat
  enableEavesdrop : Bool
  hgiId : String
  known : List String
  registry : List String
  attrs : List RDev7
deriving DecidableEq, Repr

/-- The fields of a message that `process_msg` reads (the parsed payload
abstracted to its 1FC9 `phase`, which the 1FC9 parser always supplies,
spec §4.I). -/
structure Msg7 where
  src : Addr
  dst : Addr
  code : String
  phase : Option String
deriving DecidableEq, Repr

/-- Modelled from the spec: `DONT_UPDATE_ENTITIES` and
`DONT_CREATE_ENTITIES` live in ramses_rf/const.py, which is not among
the given sources.  Spec §6: `0=full, ≥DONT_UPDATE_ENTITIES=parse only,
≥DONT_CREATE_ENTITIES=log only`, so update < create. -/
def DONT_UPDATE_ENTITIES : Nat := 1

/-- Modelled from the spec: see `DONT_UPDATE_ENTITIES`. -/
def DONT_CREATE_ENTITIES : Nat := 2

/-- Modelled from the spec: `gwy.get_device` is not among the given
sources.  Spec §4.E/§7: it promotes an address to a `Device` in the
registry, raising `LookupError` when creation is disallowed (the id not
being in the allow-list); the promotion is all-or-nothing. -/
def gwy_get_device (g : Gwy7) (devId : String) : Except String Gwy7 :=
  if devId ∈ g.known then
    Except.ok { g with
      registry := if devId ∈ g.registry then g.registry else g.registry ++ [devId] }
  else Except.error devId

/-- `_create_devices_from_addrs` (ramses_rf/dispatcher.py lines 69–103):
promote src (re-raising `LookupError`), return early when dst has the
same id or eavesdropping is off, else promote dst, swallowing its
`LookupError`; dst promotion is also skipped when src is the HGI. -/
def create_devices_from_addrs (g : Gwy7) (m : Msg7) : Except String Gwy7 :=
  if m.src.id ∉ g.registry then
    match gwy_get_device g m.src.id with
    | Except.error s => Except.error s
    | Except.ok g1 =>
        if m.dst.id = m.src.id then Except.ok g1
        else if ¬g1.enableEavesdrop then Except.ok g1
        else if m.dst.id ∉ g1.registry ∧ m.src.id ≠ g1.hgiId then
          match gwy_get_device g1 m.dst.id with
          | Except.error _ => Except.ok g1
          | Except.ok g2 => Except.ok g2
        else Except.ok g1
  else if ¬g.enableEavesdrop then Except.ok g
  else if m.dst.id ∉ g.registry ∧ m.src.id ≠ g.hgiId then
    match gwy_get_device g m.dst.id with
    | Except.error _ => Except.ok g
    | Except.ok g2 => Except.ok g2
  else Except.ok g

/-- The per-id attribute lookup over the gateway's device table. -/
def attrOf (g : Gwy7) (devId : String) : Option RDev7 :=
  g.attrs.find? (fun d => d.id = devId)

/-- `isinstance(x, Fakeable)`: the id must be a promoted `Device` whose
class is fakeable. -/
def isFakeable (g : Gwy7) (devId : String) : Bool :=
  decide (devId ∈ g.registry) &&
    (match attrOf g devId with
     | some d => d.fakeable
     | none => false)

/-- `gwy.devices`, as the routing step's filter sees them. -/
def gwyDevices (g : Gwy7) : List RDev :=
  (g.attrs.filter (fun d => decide (d.id ∈ g.registry))).map
    (fun d => ⟨d.id, d.fakeable, d.isBinding⟩)

/-- The routing view of a message after device promotion. -/
def toMsg6 (g : Gwy7) (m : Msg7) : Msg6 :=
  ⟨m.src.id, m.dst.id, decide (m.src.id ∈ g.registry), isFakeable g m.dst.id,
    m.code, m.phase,
    if m.src.id ∈ g.registry then (attrOf g m.src.id).bind RDev7.devs else none⟩

/-- `process_msg` (ramses_rf/dispatcher.py lines 241–322): address-set
sanity, early return under `reduce_processing`, device creation (its
`LookupError` caught by the inner `except` clause, logged, and
dropped), the slug checks (no-ops with `STRICT_MODE = False`), early
return under `reduce_processing`, then routing.  Every exception listed
in the two outer `except` clauses is caught and logged; the function
returns the new gateway state, the ids delivered to via `call_soon`,
and the caught error if any. -/
def process_msg7 (g : Gwy7) (m : Msg7) : Gwy7 × List String × Option PyErr :=
  match check_msg_addrs ⟨m.src, m.dst, m.code⟩ with
  | Except.error e => (g, [], some (PyErr.ramses e))
  | Except.ok _ =>
      if DONT_CREATE_ENTITIES ≤ g.reduceProcessing then (g, [], none)
      else
        match create_devices_from_addrs g m with
        | Except.error s => (g, [], some (PyErr.lookupError s))
        | Except.ok g1 =>
            if DONT_UPDATE_ENTITIES ≤ g1.reduceProcessing then (g1, [], none)
            else (g1, route_targets (gwyDevices g1) (toMsg6 g1 m), none)

theorem process_msg7_err_shape (g : Gwy7) (m : Msg7) :
    (process_msg7 g m).2.2 = none ∨
    (∃ e, process_msg7 g m = (g, [], some e)) := by
  unfold process_msg7
  cases hc : check_msg_addrs ⟨m.src, m.dst, m.code⟩ with
  | error e => exact Or.inr ⟨PyErr.ramses e, rfl⟩
  | ok u =>
      by_cases hr : DONT_CREATE_ENTITIES ≤ g.reduceProcessing
      · rw [if_pos hr]
        exact Or.inl rfl
      · rw [if_neg hr]
        cases hd : create_devices_from_addrs g m with
        | error s => exact Or.inr ⟨PyErr.lookupError s, rfl⟩
        | ok g1 =>
            by_cases hu : DONT_UPDATE_ENTITIES ≤ g1.reduceProcessing
            · exact Or.inl (by simp [hu])
            · exact Or.inl (by simp [hu])

/-- C7: `process_msg` never propagates an exception — every error of the
kinds its `except` clauses name ends up caught, logged into the outcome,
and the failing message alone is dropped: the gateway state is unchanged,
nothing is delivered to any `_handle_msg`, and every subsequent message
is processed exactly as if the failing message had never arrived. -/
theorem C7_process_msg_drops_only_failing (g : Gwy7) (m : Msg7) (e : PyErr)
    (h : (process_msg7 g m).2.2 = some e) :
    (process_msg7 g m).1 = g ∧ (process_msg7 g m).2.1 = [] ∧
    (∀ m2, process_msg7 (process_msg7 g m).1 m2 = process_msg7 g m2) := by
  rcases process_msg7_err_shape g m with h0 | ⟨e0, hp⟩
  · rw [h0] at h
    exact absurd h (by simp)
  · rw [hp]
    exact ⟨rfl, rfl, fun m2 => rfl⟩

/-- The gateway and message of the C7 witness: the dispatcher's own
example of an invalid addr pair, `I --- 01:078710 --:------ 01:144246
1F09 003 FF04B5` (distinct controller ids sharing heat type `01`, with
heat-only code `1F09`). -/
def c7gwy : Gwy7 := ⟨0, true, "18:000730", ["01:078710", "01:144246"], [], []⟩

/-- The C7 witness message. -/
def c7msg : Msg7 := ⟨⟨"01", "01:078710"⟩, ⟨"01", "01:144246"⟩, "1F09", none⟩

/-- Witness for C7 at the concrete invalid-addr-pair message: the
`PacketAddrSetInvalid` is caught, the gateway is untouched and nothing
is delivered. -/
theorem C7_process_msg_drops_only_failing_witness :
    (process_msg7 c7gwy c7msg).2.2 = some (PyErr.ramses
      (RamsesErr.packetAddrSetInvalid "Invalid addr pair: 01:078710/01:144246")) ∧
    (process_msg7 c7gwy c7msg).1 = c7gwy ∧
    (process_msg7 c7gwy c7msg).2.1 = [] := by
  have h := C7_process_msg_drops_only_failing c7gwy c7msg
    (PyErr.ramses (RamsesErr.packetAddrSetInvalid
      "Invalid addr pair: 01:078710/01:144246")) rfl
  exact ⟨rfl, h.1, h.2.1⟩

/-! ## C8 — `MessageBase.__eq__` (ramses_tx/message.py lines 112–121) -/

/-- The fields of a `Message` relevant to `__eq__` and the claim:
the compared tuple `(src, dst, verb, code, pkt.payload)` and the
fields the claim says are ignored (`dtm`, `seqn`, the packet's RSSI,
and the parsed payload). -/
structure Msg8 where
  src : Addr
  dst : Addr
  verb : Verb
  code : String
  rawPayload : String
  dtm : ℚ
  seqn : String
  rssi : String
  parsed : PayloadV
deriving DecidableEq, Repr

/-- A Python object offered to `__eq__`: a `Message`, or anything else. -/
inductive PyObj where
  | msg : Msg8 → PyObj
  | other : Nat → PyObj
deriving DecidableEq, Repr

/-- The result of `__eq__`: a boolean, or the `NotImplemented`
sentinel. -/
inductive EqResult where
  | b : Bool → EqResult
  | notImplemented : EqResult
deriving DecidableEq, Repr

/-- `MessageBase.__eq__` (ramses_tx/message.py lines 112–121): return
`NotImplemented` unless `other` is a `Message`, else compare the tuples
`(src, dst, verb, code, _pkt.payload)`. -/
def MessageBase_eq (m : Msg8) (other : PyObj) : EqResult :=
  match other with
  | PyObj.other _ => EqResult.notImplemented
  | PyObj.msg m2 =>
      EqResult.b (decide ((m.src, m.dst, m.verb, m.code, m.rawPayload) =
        (m2.src, m2.dst, m2.verb, m2.code, m2.rawPayload)))

/-- C8: two `Message`s compare equal iff their
`(src, dst, verb, code, raw payload)` tuples are equal; `dtm`, `seqn`,
RSSI and the parsed payload have no influence (replacing them on either
side does not change the result); and comparing with a non-`Message`
yields `NotImplemented`. -/
theorem C8_message_eq (m1 m2 : Msg8) (d : ℚ) (sq rs : String) (pv : PayloadV)
    (n : Nat) :
    (MessageBase_eq m1 (PyObj.msg m2) = EqResult.b true ↔
      (m1.src = m2.src ∧ m1.dst = m2.dst ∧ m1.verb = m2.verb ∧
        m1.code = m2.code ∧ m1.rawPayload = m2.rawPayload)) ∧
    MessageBase_eq { m1 with dtm := d, seqn := sq, rssi := rs, parsed := pv } (PyObj.msg m2) = MessageBase_eq m1 (PyObj.msg m2) ∧
    MessageBase_eq m1 (PyObj.msg { m2 with dtm := d, seqn := sq, rssi := rs, parsed := pv }) = MessageBase_eq m1 (PyObj.msg m2) ∧
    MessageBase_eq m1 (PyObj.other n) = EqResult.notImplemented := by
  refine ⟨?_, rfl, rfl, rfl⟩
  unfold MessageBase_eq
  simp [Prod.mk.injEq]

/-! ## C9 — `Entity._get_msg_value` and `Entity._msg_payload`
(ramses_rf/entities.py lines 40–53 and 95–99) -/

/-- The fields of a stored message the two views read: its parsed
payload, and its `_expired` flag (the `Message._expired` property of C2,
abstracted here to the boolean it yields at reading time). -/
structure VMsg where
  payload : PayloadV
  expired : Bool
deriving DecidableEq, Repr

/-- `Entity._get_msg_value(code)` with no `key` (ramses_rf/entities.py
lines 40–53): `None` when `_msgs` has no message for the code; the
payload *unchanged* when it is a list; else the payload map without the
keys beginning `"_"` and without `"domain_id"`/`"zone_idx"`. -/
def Entity_get_msg_value (msgs : Dict String VMsg) (code : String) :
    Option PayloadV :=
  match msgs.look code with
  | none => none
  | some m =>
      match m.payload with
      | PayloadV.list l => some (PayloadV.list l)
      | PayloadV.dict d =>
          some (PayloadV.dict (d.filter (fun kv =>
            ¬(kv.1.take 1 = "_") ∧ kv.1 ≠ "domain_id" ∧ kv.1 ≠ "zone_idx")))

/-- `Entity._msg_payload(msg)` with no `key` (ramses_rf/entities.py
lines 95–99): `None` for an expired message; else
`{k: v for k, v in msg.payload.items() if k[:1] != "_"}` — which, for a
list payload, raises `AttributeError` (`list` has no `.items()`), the
`Except.error`. -/
def Entity_msg_payload (m : VMsg) : Except Unit (Option PayloadV) :=
  if ¬m.expired then
    match m.payload with
    | PayloadV.dict d =>
        Except.ok (some (PayloadV.dict (d.filter (fun kv => ¬(kv.1.take 1 = "_")))))
    | PayloadV.list _ => Except.error ()
  else Except.ok none

/-- Does a parsed payload contain a key beginning with an underscore
(in the map itself, or in any member of a list payload)? -/
def payloadHasPrivateKey : PayloadV → Bool
  | PayloadV.dict d => d.any (fun kv => kv.1.take 1 = "_")
  | PayloadV.list l => l.any (fun dd => dd.any (fun kv => kv.1.take 1 = "_"))

/-- A store whose `22C9` message has a list-of-maps payload carrying a
private `_name` key. -/
def c9store : Dict String VMsg :=
  Dict.empty.insert "22C9"
    ⟨PayloadV.list [[("_name", PVal.str "x"), ("setpoint", PVal.num 21)]], false⟩

/-- C9 counterexample: for a list-of-maps payload the suppression does
*not* hold — `_get_msg_value` returns the list unchanged, private `_name`
key included, and `_msg_payload` on such a (non-expired) message raises
`AttributeError` rather than filtering. -/
theorem C9_private_key_suppression_counterexample :
    Entity_get_msg_value c9store "22C9" =
      some (PayloadV.list [[("_name", PVal.str "x"), ("setpoint", PVal.num 21)]]) ∧
    payloadHasPrivateKey
      ((Entity_get_msg_value c9store "22C9").getD (PayloadV.dict [])) = true ∧
    Entity_msg_payload
      ⟨PayloadV.list [[("_name", PVal.str "x"), ("setpoint", PVal.num 21)]], false⟩ =
      Except.error () := by
  refine ⟨rfl, by decide, rfl⟩

/-- C9 as amended: for single-map payloads both public views suppress
every key beginning with `"_"` (and `_get_msg_value` additionally drops
`domain_id` and `zone_idx`); a list-of-maps payload is returned
*unchanged* by `_get_msg_value` (private keys included), and
`_msg_payload` without a key fails with `AttributeError` on it. -/
theorem C9_views_suppress_private_keys_amended (msgs : Dict String VMsg)
    (code : String) (m : VMsg) (d : List (String × PVal))
    (l : List (List (String × PVal))) :
    (msgs.look code = some m → m.payload = PayloadV.dict d →
      Entity_get_msg_value msgs code = some (PayloadV.dict (d.filter (fun kv =>
        ¬(kv.1.take 1 = "_") ∧ kv.1 ≠ "domain_id" ∧ kv.1 ≠ "zone_idx"))) ∧
      ∀ kv ∈ d.filter (fun kv =>
          ¬(kv.1.take 1 = "_") ∧ kv.1 ≠ "domain_id" ∧ kv.1 ≠ "zone_idx"),
        ¬(kv.1.take 1 = "_") ∧ kv.1 ≠ "domain_id" ∧ kv.1 ≠ "zone_idx") ∧
    (msgs.look code = some m → m.payload = PayloadV.list l →
      Entity_get_msg_value msgs code = some (PayloadV.list l)) ∧
    (m.expired = false → m.payload = PayloadV.dict d →
      Entity_msg_payload m = Except.ok (some (PayloadV.dict (d.filter (fun kv =>
        ¬(kv.1.take 1 = "_"))))) ∧
      ∀ kv ∈ d.filter (fun kv => ¬(kv.1.take 1 = "_")), ¬(kv.1.take 1 = "_")) ∧
    (m.expired = false → m.payload = PayloadV.list l →
      Entity_msg_payload m = Except.error ()) := by
  refine ⟨?_, ?_, ?_, ?_⟩
  · intro h1 h2
    refine ⟨by simp only [Entity_get_msg_value, h1, h2], ?_⟩
    intro kv hkv
    have := List.of_mem_filter hkv
    simpa using this
  · intro h1 h2
    simp only [Entity_get_msg_value, h1, h2]
  · intro h1 h2
    refine ⟨by simp only [Entity_msg_payload, h1, h2]; simp, ?_⟩
    intro kv hkv
    have := List.of_mem_filter hkv
    simpa using this
  · intro h1 h2
    simp only [Entity_msg_payload, h1, h2]
    simp

/-- Witness for C9 (amended) at a concrete store: a `30C9` map payload
with a private `_unknown` key, a `domain_id` and a `temperature` is
filtered down to `temperature` alone by `_get_msg_value`, and keeps
`domain_id` but not `_unknown` under `_msg_payload`. -/
theorem C9_views_suppress_private_keys_witness :
    Entity_get_msg_value (Dict.empty.insert "30C9"
        ⟨PayloadV.dict [("_unknown", PVal.null), ("domain_id", PVal.str "FC"),
          ("temperature", PVal.num 21)], false⟩) "30C9" =
      some (PayloadV.dict [("temperature", PVal.num 21)]) ∧
    Entity_msg_payload ⟨PayloadV.dict [("_unknown", PVal.null),
        ("domain_id", PVal.str "FC"), ("temperature", PVal.num 21)], false⟩ =
      Except.ok (some (PayloadV.dict [("domain_id", PVal.str "FC"),
        ("temperature", PVal.num 21)])) ∧
    Entity_get_msg_value (Dict.empty.insert "22C9"
        ⟨PayloadV.list [[("_name", PVal.str "x")]], false⟩) "22C9" =
      some (PayloadV.list [[("_name", PVal.str "x")]]) := by
  have h := C9_views_suppress_private_keys_amended
    (Dict.empty.insert "30C9" ⟨PayloadV.dict [("_unknown", PVal.null),
      ("domain_id", PVal.str "FC"), ("temperature", PVal.num 21)], false⟩)
    "30C9"
    ⟨PayloadV.dict [("_unknown", PVal.null), ("domain_id", PVal.str "FC"),
      ("temperature", PVal.num 21)], false⟩
    [("_unknown", PVal.null), ("domain_id", PVal.str "FC"),
      ("temperature", PVal.num 21)]
    []
  have h2 := C9_views_suppress_private_keys_amended
    (Dict.empty.insert "22C9" ⟨PayloadV.list [[("_name", PVal.str "x")]], false⟩)
    "22C9" ⟨PayloadV.list [[("_name", PVal.str "x")]], false⟩ []
    [[("_name", PVal.str "x")]]
  refine ⟨?_, ?_, h2.2.1 rfl rfl⟩
  · rw [(h.1 rfl rfl).1]
    decide
  · rw [(h.2.2.1 rfl rfl).1]
    rfl

/-! ## C10 — `QosParams.__init__` (ramses_tx/typing.py lines 36–70) -/

/-- `DEFAULT_MAX_RETRIES = 3` (ramses_tx/typing.py line 24). -/
def DEFAULT_MAX_RETRIES : Int := 3

/-- `DEFAULT_TIMEOUT = 30.0` (ramses_tx/typing.py line 25). -/
def DEFAULT_TIMEOUT : ℚ := 30

/-- The state a constructed `QosParams` exposes through its `max_retries`,
`timeout` and `wait_for_reply` properties. -/
structure QosParams where
  maxRetries : Int
  timeout : ℚ
  waitForReply : Option Bool
deriving DecidableEq, Repr

/-- `QosParams.__init__` (ramses_tx/typing.py lines 39–57):
`_max_retries = DEFAULT_MAX_RETRIES if max_retries is None else max_retries`,
`_timeout = timeout or DEFAULT_TIMEOUT` (Python `or`, so both `None` and
the falsy `0.0` become the default), and `_wait_for_reply` stored as
given (`False` and `None` have different meanings). -/
def QosParams_init (max_retries : Option Int) (timeout : Option ℚ)
    (wait_for_reply : Option Bool) : QosParams :=
  { maxRetries :=
      match max_retries with
      | none => DEFAULT_MAX_RETRIES
      | some n => n
  , timeout :=
      match timeout with
      | none => DEFAULT_TIMEOUT
      | some t => if t = 0 then DEFAULT_TIMEOUT else t
  , waitForReply := wait_for_reply }

/-- C10: any falsy `timeout` (both `None` and `0.0`) is coerced to the
30-second default, so no constructed `QosParams` ever has a zero
`timeout`; `max_retries` falls back to 3 only on `None`, with
`max_retries=0` preserved (a no-retry send is expressible, a no-wait
send is not); and `wait_for_reply` is stored unchanged, keeping `None`
distinct from `False`. -/
theorem C10_qos_params_init (r : Option Int) (t : Option ℚ) (w : Option Bool)
    (n : Int) (q : ℚ) :
    (QosParams_init r none w).timeout = 30 ∧
    (QosParams_init r (some 0) w).timeout = 30 ∧
    (QosParams_init r (some q) w).timeout = (if q = 0 then 30 else q) ∧
    (QosParams_init r t w).timeout ≠ 0 ∧
    (QosParams_init none t w).maxRetries = 3 ∧
    (QosParams_init (some n) t w).maxRetries = n ∧
    (QosParams_init (some 0) t w).maxRetries = 0 ∧
    (QosParams_init r t w).waitForReply = w := by
  refine ⟨rfl, rfl, rfl, ?_, ?_, rfl, rfl, rfl⟩
  · cases t with
    | none =>
        simp [QosParams_init, DEFAULT_TIMEOUT]
    | some q0 =>
        by_cases hq : q0 = 0 <;> simp [QosParams_init, DEFAULT_TIMEOUT, hq]
  · cases t <;> rfl
